import Mathlib

/-!
Shallow embedding of `src/get_forecast.py`: a command-line script that
derives a forecast date window from the current date, queries a billing
service (with a fallback to month-to-date actuals), computes the prior
month's cost, and prints one formatted line.  Monetary amounts (Python
floats) are modelled as rationals; the calendar arithmetic of
`datetime`/`dateutil.relativedelta` is modelled on a proleptic Gregorian
calendar.
-/

namespace GetForecast

/-- A calendar date, as carried by Python `datetime` values (time of day is
irrelevant to the script: only dates are formatted and compared). -/
structure Date where
  year : Nat
  month : Nat
  day : Nat
deriving DecidableEq, Repr

/-- Gregorian leap-year rule, as implemented by Python `datetime`. -/
def isLeapYear (y : Nat) : Bool :=
  decide ((y % 4 = 0 ∧ y % 100 ≠ 0) ∨ y % 400 = 0)

/-- Number of days in a month (month 1 = January). -/
def daysInMonth (leap : Bool) (m : Nat) : Nat :=
  if m = 2 then (if leap then 29 else 28)
  else if m = 4 ∨ m = 6 ∨ m = 9 ∨ m = 11 then 30
  else 31

/-- Days elapsed in the year before the first day of month `m`. -/
def daysBeforeMonth (leap : Bool) : Nat → Nat
  | 0 => 0
  | 1 => 0
  | m + 2 => daysBeforeMonth leap (m + 1) + daysInMonth leap (m + 1)

/-- Number of leap years in `[1, y]`. -/
def leapsBefore (y : Nat) : Nat := y / 4 - y / 100 + y / 400

/-- Day number in the proleptic Gregorian calendar: January 1 of year 1 is
day 1 (a Monday, in agreement with Python `datetime.isoweekday`). -/
def toRataDie (d : Date) : Nat :=
  365 * (d.year - 1) + leapsBefore (d.year - 1)
    + daysBeforeMonth (isLeapYear d.year) d.month + d.day

/-- ISO weekday as returned by `datetime.isoweekday()`: Monday = 1 ... Sunday = 7. -/
def isoweekday (d : Date) : Nat := (toRataDie d - 1) % 7 + 1

/-- A date is valid when its month and day are in range for its year. -/
def validDate (d : Date) : Prop :=
  1 ≤ d.year ∧ 1 ≤ d.month ∧ d.month ≤ 12 ∧ 1 ≤ d.day
    ∧ d.day ≤ daysInMonth (isLeapYear d.year) d.month

instance (d : Date) : Decidable (validDate d) := by
  unfold validDate; infer_instance

/-- The calendar successor of a date. -/
def nextDay (d : Date) : Date :=
  if d.day < daysInMonth (isLeapYear d.year) d.month then ⟨d.year, d.month, d.day + 1⟩
  else if d.month < 12 then ⟨d.year, d.month + 1, 1⟩
  else ⟨d.year + 1, 1, 1⟩

/-- The calendar predecessor of a date (used for `relativedelta(days=-1)`). -/
def prevDay (d : Date) : Date :=
  if 1 < d.day then ⟨d.year, d.month, d.day - 1⟩
  else if 1 < d.month then ⟨d.year, d.month - 1, daysInMonth (isLeapYear d.year) (d.month - 1)⟩
  else ⟨d.year - 1, 12, 31⟩

/-- `relativedelta(days=n)` for `n ≥ 0`: `n`-fold calendar successor. -/
def addDays : Nat → Date → Date
  | 0, d => d
  | n + 1, d => nextDay (addDays n d)

/-- `relativedelta(months=1)`: advance the month with year rollover, clamping
the day to the length of the target month. -/
def addOneMonth (d : Date) : Date :=
  if d.month = 12 then
    ⟨d.year + 1, 1, min d.day (daysInMonth (isLeapYear (d.year + 1)) 1)⟩
  else
    ⟨d.year, d.month + 1, min d.day (daysInMonth (isLeapYear d.year) (d.month + 1))⟩

/-- `relativedelta(months=-1)`: step the month back with year rollover,
clamping the day to the length of the target month. -/
def subOneMonth (d : Date) : Date :=
  if d.month = 1 then
    ⟨d.year - 1, 12, min d.day (daysInMonth (isLeapYear (d.year - 1)) 12)⟩
  else
    ⟨d.year, d.month - 1, min d.day (daysInMonth (isLeapYear d.year) (d.month - 1))⟩

/-- Strict ordering of dates (lexicographic on year, month, day). -/
def dateLt (a b : Date) : Prop :=
  a.year < b.year ∨ (a.year = b.year ∧ (a.month < b.month
    ∨ (a.month = b.month ∧ a.day < b.day)))

instance (a b : Date) : Decidable (dateLt a b) := by
  unfold dateLt; infer_instance

/-! ## Dates derived from `now` inside `calc_forecast` (src/get_forecast.py lines 128-165) -/

/-- `start_time` of the forecast window (lines 135-141): tomorrow on
Monday-Thursday; `now + (7 - isoweekday + 1)` days, i.e. the coming Monday,
on Friday, Saturday, Sunday. -/
def forecastStart (now : Date) : Date :=
  if 5 ≤ isoweekday now then addDays (7 - isoweekday now + 1) now
  else addDays 1 now

/-- `end_time` of the forecast window (line 144):
`(now + relativedelta(months=1)).strftime("%Y-%m-01")` — the year and month
after adding one month, with the day hard-coded to 01 by the format string. -/
def forecastEnd (now : Date) : Date :=
  ⟨(addOneMonth now).year, (addOneMonth now).month, 1⟩

/-- Fallback query start (line 152): `now.replace(day=1)`. -/
def actualsStart (now : Date) : Date := ⟨now.year, now.month, 1⟩

/-- Fallback query end (line 153): `now`. -/
def actualsEnd (now : Date) : Date := now

/-- Line 164: `(now + relativedelta(months=-1)).replace(day=1)`. -/
def first_day_of_prior_month (now : Date) : Date :=
  ⟨(subOneMonth now).year, (subOneMonth now).month, 1⟩

/-- Line 165: `now.replace(day=1) + relativedelta(days=-1)`. -/
def last_day_of_previous_month (now : Date) : Date :=
  prevDay ⟨now.year, now.month, 1⟩

/-! ## Output formatting (line 179) -/

/-- Round a rational to the nearest integer, ties to even — the rounding
used by Python `format` (`.0f`, `.2f`); amounts are modelled as exact
rationals. -/
def roundHalfEven (x : Rat) : Int :=
  let f := Rat.floor x
  if x - (f : Rat) < 1 / 2 then f
  else if (1 : Rat) / 2 < x - (f : Rat) then f + 1
  else if f % 2 = 0 then f else f + 1

/-- Insert thousands separators into a reversed digit list. -/
def commaGroup : List Char → List Char
  | a :: b :: c :: d :: rest => a :: b :: c :: ',' :: commaGroup (d :: rest)
  | l => l

/-- Group the digits of a decimal string in threes with commas. -/
def commaSep (s : String) : String := ⟨(commaGroup s.data.reverse).reverse⟩

/-- Python `"{0:,.0f}".format(x)`: nearest integer with thousands separators. -/
def formatAmount (x : Rat) : String :=
  let n := roundHalfEven x
  let s := commaSep (Nat.repr n.natAbs)
  if n < 0 then "-" ++ s else s

/-- Python `"{0:+.2f}".format(x)`: explicit sign, two decimal places. -/
def formatPct (x : Rat) : String :=
  let h := roundHalfEven (x * 100)
  let sign := if h < 0 then "-" else "+"
  let a := h.natAbs
  sign ++ Nat.repr (a / 100) ++ "." ++ (if a % 100 < 10 then "0" else "") ++ Nat.repr (a % 100)

/-- Lines 175-177: percentage change versus the prior month, 0 when the
current amount is 0. -/
def pct_change (current prior : Rat) : Rat :=
  if current ≠ 0 then (1 - prior / current) * 100 else 0

/-! ## The two billing queries, modelled as oracles

`get_cost_forecast` (lines 76-93) and `get_cost_and_usage` (lines 98-120)
each call the cost-explorer client with a date window and either return an
amount or raise; they are modelled as functions into `Except`, and every
invocation is recorded in a call trace. -/

/-- One outbound call to the billing service, with the window it was given. -/
inductive QueryCall where
  | costForecast (startDate endDate : Date)
  | costAndUsage (startDate endDate : Date)
deriving DecidableEq, Repr

/-- Diagnostic output written by `calc_forecast` on query failures
(lines 149, 160-161, 171-173). -/
inductive LogEvent where
  | warnFallback (startDate endDate : Date)
  | errCurrent (startDate endDate : Date) (msg : String)
  | errPrior (startDate endDate : Date) (msg : String)
deriving DecidableEq, Repr

/-- Outcome of the current-month phase (lines 136-161): the label, the
amount, the calls it made, and the diagnostics it printed. -/
structure PhaseResult where
  cost_type : String
  amount : Rat
  calls : List QueryCall
  logs : List LogEvent
deriving DecidableEq, Repr

/-- Lines 136-161: try the forecast query over the forecast window; on
failure fall back to actuals over `[first-of-month, today]`; on failure of
both, amount 0 with an error label. -/
def currentPhase (fc cu : Date → Date → Except String Rat) (now : Date) : PhaseResult :=
  let s := forecastStart now
  let e := forecastEnd now
  match fc s e with
  | .ok a => ⟨"Forecast", a, [.costForecast s e], []⟩
  | .error _ =>
    let s2 := actualsStart now
    let e2 := actualsEnd now
    match cu s2 e2 with
    | .ok a =>
        ⟨"Actuals(MTD - not enought data to forecast)", a,
          [.costForecast s e, .costAndUsage s2 e2], [.warnFallback s e]⟩
    | .error msg =>
        ⟨"Error cannot calculate forecast", 0,
          [.costForecast s e, .costAndUsage s2 e2],
          [.warnFallback s e, .errCurrent s2 e2 msg]⟩

/-- Outcome of the prior-month phase (lines 167-173). -/
structure PriorResult where
  amount : Rat
  logs : List LogEvent
deriving DecidableEq, Repr

/-- Lines 167-173: query last month's bill; on failure use 0 and log. -/
def priorPhase (cu : Date → Date → Except String Rat) (now : Date) : PriorResult :=
  let ps := first_day_of_prior_month now
  let pe := last_day_of_previous_month now
  match cu ps pe with
  | .ok a => ⟨a, []⟩
  | .error msg => ⟨0, [.errPrior ps pe msg]⟩

/-- Everything observable about one run of `calc_forecast`: the Python
locals `cost_type`, `current_month_forecast`, `prior_month_bill`,
`pct_change`, the returned string, and the traces. -/
structure CalcResult where
  cost_type : String
  current_month_forecast : Rat
  prior_month_bill : Rat
  pct : Rat
  output : String
  calls : List QueryCall
  logs : List LogEvent
deriving DecidableEq, Repr

/-- `calc_forecast` (lines 128-179). -/
def calc_forecast (fc cu : Date → Date → Except String Rat) (now : Date) : CalcResult :=
  let cur := currentPhase fc cu now
  let ps := first_day_of_prior_month now
  let pe := last_day_of_previous_month now
  let prior := priorPhase cu now
  let p := pct_change cur.amount prior.amount
  { cost_type := cur.cost_type
    current_month_forecast := cur.amount
    prior_month_bill := prior.amount
    pct := p
    output := cur.cost_type ++ ": $" ++ formatAmount cur.amount ++ " (" ++ formatPct p ++ "%)"
    calls := cur.calls ++ [.costAndUsage ps pe]
    logs := cur.logs ++ prior.logs }

/-! ## `main` (lines 182-203) -/

/-- How the process ends: an explicit `sys.exit`, or an exception escaping
to the interpreter (which then prints the exception chain and exits 1). -/
inductive Outcome where
  | exited (code : Nat)
  | uncaught (msg : String) (context : Option String)
deriving DecidableEq, Repr

/-- The operating-system exit code resulting from an `Outcome`: an
uncaught exception makes the interpreter exit with code 1. -/
def osExitCode : Outcome → Nat
  | .exited c => c
  | .uncaught _ _ => 1

/-- The modules imported by the script (lines 28-34).  `traceback` is
absent, although line 199 uses `traceback.format_exc()`. -/
def importedModules : List String :=
  ["argparse", "os", "sys", "logging", "boto3", "datetime", "dateutil.relativedelta"]

/-- The message of the `NameError` raised when the handler on line 199
evaluates `traceback.format_exc()` without `traceback` being imported. -/
def nameErrorTraceback : String := "name 'traceback' is not defined"

/-- Observable result of one run of `main`. -/
structure RunResult where
  printed : List String
  calls : List QueryCall
  outcome : Outcome
deriving DecidableEq, Repr

/-- The top-level `except Exception` handler (lines 198-201).  It formats
the error with `traceback.format_exc()`; since `traceback` is not among
`importedModules`, that expression raises a `NameError` which escapes with
the original exception as its context, so nothing is printed by the
handler and `sys.exit(1)` is never reached. -/
def topHandler (excMsg : String) (printedSoFar : List String)
    (callsSoFar : List QueryCall) : RunResult :=
  if List.elem "traceback" importedModules then
    { printed := printedSoFar ++ ["Error: " ++ excMsg], calls := callsSoFar,
      outcome := .exited 1 }
  else
    { printed := printedSoFar, calls := callsSoFar,
      outcome := .uncaught nameErrorTraceback (some excMsg) }

/-- `main` (lines 182-203), parametrised by the two query oracles, the
`--profile` and `--type` arguments, and the current date.  `sys.exit`
raises `SystemExit`, which `except Exception` does not catch, so the
invalid-type branch exits 1 directly. -/
def main (fc cu : Date → Date → Except String Rat) (_profile ty : String)
    (now : Date) : RunResult :=
  if ty = "FORECAST" then
    let r := calc_forecast fc cu now
    { printed := [r.output], calls := r.calls, outcome := .exited 0 }
  else if ty = "ACTUALS" then
    topHandler "not implimented - ACTUALS" [] []
  else
    { printed := ["Invalid run type: cmdline_params.type . Please choose from: FORECAST, ACTUALS"],
      calls := [], outcome := .exited 1 }

/-! ## Substring search (for claims about message contents) -/

/-- Whether `pat` occurs at the head of `l`. -/
def chListStarts : List Char → List Char → Bool
  | _, [] => true
  | [], _ :: _ => false
  | a :: as, b :: bs => a = b && chListStarts as bs

/-- Whether `pat` occurs anywhere in the list. -/
def chListHas (pat : List Char) : List Char → Bool
  | [] => pat.isEmpty
  | a :: t => chListStarts (a :: t) pat || chListHas pat t

/-- Whether `pat` occurs as a substring of `s`. -/
def strHas (s pat : String) : Bool := chListHas pat.data s.data

/-! ## Calendar lemmas -/

theorem isoweekday_ge_one (d : Date) : 1 ≤ isoweekday d := by
  unfold isoweekday; omega

theorem isoweekday_le_seven (d : Date) : isoweekday d ≤ 7 := by
  unfold isoweekday; omega

theorem daysInMonth_pos (leap : Bool) (m : Nat) : 1 ≤ daysInMonth leap m := by
  unfold daysInMonth
  split_ifs <;> omega

theorem daysBeforeMonth_one (leap : Bool) : daysBeforeMonth leap 1 = 0 := rfl

theorem daysBeforeMonth_succ (leap : Bool) (m : Nat) (h : 1 ≤ m) :
    daysBeforeMonth leap (m + 1) = daysBeforeMonth leap m + daysInMonth leap m := by
  obtain ⟨k, rfl⟩ : ∃ k, m = k + 1 := ⟨m - 1, by omega⟩
  rfl

theorem daysBeforeMonth_twelve (leap : Bool) :
    daysBeforeMonth leap 12 = if leap then 335 else 334 := by
  cases leap <;> rfl

theorem leapsBefore_step (y : Nat) (hy : 1 ≤ y) :
    leapsBefore y = leapsBefore (y - 1) + (if isLeapYear y then 1 else 0) := by
  have hb : isLeapYear y = true ↔ ((y % 4 = 0 ∧ y % 100 ≠ 0) ∨ y % 400 = 0) := by
    simp [isLeapYear]
  cases h : isLeapYear y
  · rw [h] at hb
    simp only [Bool.false_eq_true, false_iff] at hb
    push_neg at hb
    obtain ⟨hb1, hb2⟩ := hb
    simp only [leapsBefore, h, Bool.false_eq_true, if_false]
    rcases Nat.eq_zero_or_pos (y % 4) with h4 | h4
    · have h100 := hb1 h4
      omega
    · omega
  · rw [h] at hb
    simp only [true_iff] at hb
    simp only [leapsBefore, h, if_true]
    rcases hb with ⟨h4, h100⟩ | h400
    · omega
    · omega

theorem toRataDie_pos (d : Date) (hd : 1 ≤ d.day) : 1 ≤ toRataDie d := by
  unfold toRataDie; omega

theorem toRataDie_nextDay (d : Date) (hv : validDate d) :
    toRataDie (nextDay d) = toRataDie d + 1 := by
  obtain ⟨hy, hm1, hm2, hd1, hd2⟩ := hv
  unfold nextDay
  split_ifs with h1 h2
  · simp only [toRataDie]
    omega
  · have hstep := daysBeforeMonth_succ (isLeapYear d.year) d.month hm1
    simp only [toRataDie]
    omega
  · have hm : d.month = 12 := by omega
    have hdim : daysInMonth (isLeapYear d.year) d.month = 31 := by rw [hm]; rfl
    have h12 := daysBeforeMonth_twelve (isLeapYear d.year)
    have hL := leapsBefore_step d.year hy
    simp only [toRataDie, daysBeforeMonth_one, Nat.add_sub_cancel]
    rw [hm]
    cases hLeap : isLeapYear d.year <;> simp only [hLeap] at h12 hL <;> simp at h12 hL <;> omega

theorem validDate_nextDay (d : Date) (hv : validDate d) : validDate (nextDay d) := by
  obtain ⟨hy, hm1, hm2, hd1, hd2⟩ := hv
  unfold nextDay validDate
  split_ifs with h1 h2 <;> dsimp only
  · exact ⟨hy, hm1, hm2, by omega, by omega⟩
  · exact ⟨hy, by omega, by omega, le_refl 1, daysInMonth_pos _ _⟩
  · exact ⟨by omega, by omega, by omega, le_refl 1, daysInMonth_pos _ _⟩

theorem validDate_addDays (n : Nat) (d : Date) (hv : validDate d) :
    validDate (addDays n d) := by
  induction n with
  | zero => exact hv
  | succ k ih => exact validDate_nextDay _ ih

theorem toRataDie_addDays (n : Nat) (d : Date) (hv : validDate d) :
    toRataDie (addDays n d) = toRataDie d + n := by
  induction n with
  | zero => rfl
  | succ k ih =>
    have := toRataDie_nextDay (addDays k d) (validDate_addDays k d hv)
    simp only [addDays]
    omega

theorem isoweekday_addDays (n : Nat) (d : Date) (hv : validDate d) :
    isoweekday (addDays n d) = (isoweekday d - 1 + n) % 7 + 1 := by
  have h1 := toRataDie_addDays n d hv
  have h2 := toRataDie_pos d hv.2.2.2.1
  unfold isoweekday
  omega

/-! ## Evaluation lemmas for the formatting pipeline -/

theorem ratFloor_intCast (n : ℤ) : Rat.floor ((n : ℚ)) = n := by
  rw [Rat.floor_def', ← Rat.floor_def, Int.floor_intCast]

theorem roundHalfEven_eq_int (x : ℚ) (n : ℤ) (h : x = (n : ℚ)) : roundHalfEven x = n := by
  subst h
  unfold roundHalfEven
  rw [ratFloor_intCast]
  norm_num

theorem formatAmount_eq_int (x : ℚ) (n : ℤ) (h : x = (n : ℚ)) :
    formatAmount x =
      (if n < 0 then "-" ++ commaSep (Nat.repr n.natAbs)
       else commaSep (Nat.repr n.natAbs)) := by
  simp only [formatAmount]
  rw [roundHalfEven_eq_int x n h]

theorem formatPct_eq_int (x : ℚ) (n : ℤ) (h : x * 100 = (n : ℚ)) :
    formatPct x =
      (if n < 0 then "-" else "+") ++ Nat.repr (n.natAbs / 100) ++ "."
        ++ (if n.natAbs % 100 < 10 then "0" else "") ++ Nat.repr (n.natAbs % 100) := by
  simp only [formatPct]
  rw [roundHalfEven_eq_int _ n h]

/-! ## Spec-side date definitions (used only to compare against the code) -/

/-- The first day of the calendar month after `d`'s month, written from the
spec's words: the 1st of the next calendar month, rolling December over to
January of the next year. -/
def specFirstOfNextMonth (d : Date) : Date :=
  if d.month = 12 then ⟨d.year + 1, 1, 1⟩ else ⟨d.year, d.month + 1, 1⟩

/-- The first day of the calendar month before `d`'s month, from the spec's
words. -/
def specFirstOfPriorMonth (d : Date) : Date :=
  if d.month = 1 then ⟨d.year - 1, 12, 1⟩ else ⟨d.year, d.month - 1, 1⟩

/-- The last day of the calendar month before `d`'s month, from the spec's
words. -/
def specLastOfPriorMonth (d : Date) : Date :=
  let f := specFirstOfPriorMonth d
  ⟨f.year, f.month, daysInMonth (isLeapYear f.year) f.month⟩

/-! ## Claims -/

/-- C1: for every current date, the forecast window start date computed by
`calc_forecast` is tomorrow when the ISO weekday is 1-4 (Monday-Thursday),
and is the following Monday — the unique Monday at most a few days ahead,
with no earlier Monday strictly after today — when the ISO weekday is 5-7
(Friday, Saturday, Sunday). -/
theorem C1_forecast_start (d : Date) (hv : validDate d) :
    (isoweekday d ≤ 4 → forecastStart d = addDays 1 d) ∧
    (5 ≤ isoweekday d →
      isoweekday (forecastStart d) = 1 ∧
      ∃ k, 1 ≤ k ∧ forecastStart d = addDays k d ∧
        ∀ j, 1 ≤ j → j < k → isoweekday (addDays j d) ≠ 1) := by
  have h7 := isoweekday_le_seven d
  have h1 := isoweekday_ge_one d
  constructor
  · intro h
    simp only [forecastStart]
    rw [if_neg (by omega)]
  · intro h
    simp only [forecastStart]
    rw [if_pos h]
    refine ⟨?_, 7 - isoweekday d + 1, by omega, rfl, ?_⟩
    · rw [isoweekday_addDays _ _ hv]
      omega
    · intro j hj1 hj2
      rw [isoweekday_addDays _ _ hv]
      omega

/-- Witness for C1 at Friday 2020-10-30: the computed start is a Monday. -/
theorem C1_witness : isoweekday (forecastStart ⟨2020, 10, 30⟩) = 1 :=
  ((C1_forecast_start ⟨2020, 10, 30⟩ (by decide)).2 (by decide)).1

/-- C4: for every current date, the forecast window end date computed by
`calc_forecast` is the first day of the next calendar month, including the
December-to-January rollover. -/
theorem C4_forecast_end (d : Date) : forecastEnd d = specFirstOfNextMonth d := by
  unfold forecastEnd addOneMonth specFirstOfNextMonth
  by_cases h : d.month = 12 <;> simp [h]

/-- C10: there are current dates — a weekend day late enough in the month —
for which the forecast window start computed by `calc_forecast` is strictly
later than its end, making the window passed to the forecast query empty or
invalid.  Friday 2020-10-30 gives start 2020-11-02 and end 2020-11-01. -/
theorem C10_window_inverted :
    ∃ d : Date, validDate d ∧ 5 ≤ isoweekday d ∧
      dateLt (forecastEnd d) (forecastStart d) :=
  ⟨⟨2020, 10, 30⟩, by decide, by decide, by decide⟩

/-- C2: the percentage change computed by `calc_forecast` is
`(1 - prior / current) * 100` when the current-period amount is nonzero and
`0` (printed as `+0.00`) when it is zero; with current 1000 and prior 900
the printed line is `Forecast: $1,000 (+10.00%)`. -/
theorem C2_pct_change :
    (∀ current prior : ℚ, current ≠ 0 →
      pct_change current prior = (1 - prior / current) * 100) ∧
    (∀ prior : ℚ, pct_change 0 prior = 0 ∧ formatPct (pct_change 0 prior) = "+0.00") ∧
    (calc_forecast (fun _ _ => .ok 1000) (fun _ _ => .ok 900) ⟨2026, 1, 7⟩).output
      = "Forecast: $1,000 (+10.00%)" := by
  refine ⟨?_, ?_, ?_⟩
  · intro current prior h
    simp [pct_change, h]
  · intro prior
    have h0 : pct_change 0 prior = 0 := by simp [pct_change]
    refine ⟨h0, ?_⟩
    rw [h0, formatPct_eq_int 0 0 (by norm_num)]
    decide
  · have hc : pct_change 1000 900 = 10 := by
      unfold pct_change
      norm_num
    dsimp only [calc_forecast, currentPhase, priorPhase]
    rw [hc, formatAmount_eq_int 1000 1000 (by norm_num), formatPct_eq_int 10 1000 (by norm_num)]
    decide

/-- Witness for C2: the nonzero-current branch at current 1000, prior 900. -/
theorem C2_witness : pct_change 1000 900 = (1 - 900 / 1000) * 100 :=
  C2_pct_change.1 1000 900 (by decide)

/-- C3: evaluation at the failing input.  When an exception reaches the
top-level handler (here the not-implemented error of `--type ACTUALS`), the
handler evaluates `traceback.format_exc()` although `traceback` was never
imported, so nothing is printed by the handler and a `NameError` escapes;
the exit code 1 comes from that uncaught error, not from `sys.exit(1)`. -/
theorem C3_handler_bug :
    (main (fun _ _ => .error "boom") (fun _ _ => .error "boom") "prof" "ACTUALS" ⟨2026, 2, 3⟩)
      = { printed := [], calls := [],
          outcome := .uncaught nameErrorTraceback (some "not implimented - ACTUALS") } := by
  decide

/-- C5 counterexample: with the forecast query failing and the fallback
succeeding, the label is not the spec's spelling
`Actuals(MTD - not enough data to forecast)`. -/
theorem C5_counterexample :
    (calc_forecast (fun _ _ => .error "x") (fun _ _ => .ok 5) ⟨2026, 4, 8⟩).cost_type
      ≠ "Actuals(MTD - not enough data to forecast)" := by
  decide

/-- C5 (amended): whenever the forecast query fails and the fallback
actual-usage query succeeds, the label returned by `calc_forecast` is
exactly `Actuals(MTD - not enought data to forecast)` (with the source's
misspelling of "enough"). -/
theorem C5_amended_label (fc cu : Date → Date → Except String ℚ) (d : Date)
    (e : String) (a : ℚ)
    (h1 : fc (forecastStart d) (forecastEnd d) = .error e)
    (h2 : cu (actualsStart d) (actualsEnd d) = .ok a) :
    (calc_forecast fc cu d).cost_type
      = "Actuals(MTD - not enought data to forecast)" := by
  simp only [calc_forecast, currentPhase, h1, h2]

/-- Witness for C5 (amended) at a concrete date and oracles. -/
theorem C5_witness :
    (calc_forecast (fun _ _ => .error "y") (fun _ _ => .ok 7) ⟨2026, 4, 9⟩).cost_type
      = "Actuals(MTD - not enought data to forecast)" :=
  C5_amended_label _ _ ⟨2026, 4, 9⟩ "y" 7 rfl rfl

/-- C6: `calc_forecast` is a total function of the query behaviours (the
embedding returns a `CalcResult` for every oracle); when both the forecast
query and the fallback query fail, the label is
`Error cannot calculate forecast`, the printed amount is `$0`, the whole
line is `Error cannot calculate forecast: $0 (+0.00%)`, and `main` still
exits with code 0. -/
theorem C6_both_fail (fc cu : Date → Date → Except String ℚ) (d : Date) (p : String)
    (e1 e2 : String)
    (h1 : fc (forecastStart d) (forecastEnd d) = .error e1)
    (h2 : cu (actualsStart d) (actualsEnd d) = .error e2) :
    (calc_forecast fc cu d).cost_type = "Error cannot calculate forecast" ∧
    (calc_forecast fc cu d).output = "Error cannot calculate forecast: $0 (+0.00%)" ∧
    osExitCode (main fc cu p "FORECAST" d).outcome = 0 := by
  refine ⟨?_, ?_, rfl⟩
  · simp only [calc_forecast, currentPhase, h1, h2]
  · simp only [calc_forecast, currentPhase, h1, h2]
    have hp : pct_change 0 (priorPhase cu d).amount = 0 := by simp [pct_change]
    rw [hp, formatAmount_eq_int 0 0 (by norm_num), formatPct_eq_int 0 0 (by norm_num)]
    decide

/-- Witness for C6 with both oracles failing. -/
theorem C6_witness :
    (calc_forecast (fun _ _ => .error "a") (fun _ _ => .error "b") ⟨2026, 3, 3⟩).output
      = "Error cannot calculate forecast: $0 (+0.00%)" :=
  (C6_both_fail _ _ ⟨2026, 3, 3⟩ "p" "a" "b" rfl rfl).2.1

/-- C7: the prior-month query window is exactly
`[first day of prior month, last day of prior month]`; that query is issued
on every invocation of `calc_forecast` regardless of the earlier queries'
outcome; and when it fails the prior amount is 0 and the error is logged,
not raised. -/
theorem C7_prior_month (fc cu : Date → Date → Except String ℚ) (d : Date)
    (hv : validDate d) :
    first_day_of_prior_month d = specFirstOfPriorMonth d ∧
    last_day_of_previous_month d = specLastOfPriorMonth d ∧
    QueryCall.costAndUsage (first_day_of_prior_month d) (last_day_of_previous_month d)
      ∈ (calc_forecast fc cu d).calls ∧
    ∀ e, cu (first_day_of_prior_month d) (last_day_of_previous_month d) = .error e →
      (calc_forecast fc cu d).prior_month_bill = 0 ∧
      LogEvent.errPrior (first_day_of_prior_month d) (last_day_of_previous_month d) e
        ∈ (calc_forecast fc cu d).logs := by
  refine ⟨?_, ?_, ?_, ?_⟩
  · unfold first_day_of_prior_month subOneMonth specFirstOfPriorMonth
    by_cases h : d.month = 1 <;> simp [h]
  · unfold last_day_of_previous_month prevDay specLastOfPriorMonth specFirstOfPriorMonth
    by_cases h : d.month = 1
    · simp [h, daysInMonth]
    · have hm2 : 1 < d.month := by
        have := hv.2.1
        omega
      simp [h, hm2]
  · simp [calc_forecast, List.mem_append]
  · intro e he
    constructor
    · simp only [calc_forecast, priorPhase, he]
    · simp [calc_forecast, priorPhase, he, List.mem_append]

/-- Witness for C7: a failing prior query yields a 0 prior amount. -/
theorem C7_witness :
    (calc_forecast (fun _ _ => .ok 3) (fun _ _ => .error "x") ⟨2026, 3, 15⟩).prior_month_bill
      = 0 :=
  ((C7_prior_month _ _ ⟨2026, 3, 15⟩ (by decide)).2.2.2 "x" rfl).1

/-- C8 counterexample: the run with `--type ACTUALS` never produces the
literal text `not implemented`: the only message carried out of the process
is the misspelled `not implimented - ACTUALS` (inside the uncaught
exception chain), and nothing is printed. -/
theorem C8_counterexample :
    strHas "not implimented - ACTUALS" "not implemented" = false ∧
    (main (fun _ _ => .error "q") (fun _ _ => .ok 1) "p" "ACTUALS" ⟨2026, 2, 4⟩).printed = [] ∧
    (main (fun _ _ => .error "q") (fun _ _ => .ok 1) "p" "ACTUALS" ⟨2026, 2, 4⟩).outcome
      = .uncaught nameErrorTraceback (some "not implimented - ACTUALS") := by
  refine ⟨by decide, rfl, rfl⟩

/-- C8 (amended): invoking with `--type ACTUALS` always terminates with
operating-system exit code 1 without calling any billing query, and the
failure message carried out is `not implimented - ACTUALS` (the source's
misspelling of "not implemented"); it escapes inside an uncaught
`NameError` chain because the handler's `traceback` module is not
imported. -/
theorem C8_amended_actuals (fc cu : Date → Date → Except String ℚ) (p : String) (d : Date) :
    (main fc cu p "ACTUALS" d).calls = [] ∧
    osExitCode (main fc cu p "ACTUALS" d).outcome = 1 ∧
    (main fc cu p "ACTUALS" d).outcome
      = .uncaught nameErrorTraceback (some "not implimented - ACTUALS") :=
  ⟨rfl, rfl, rfl⟩

/-- C9: an unrecognized `--type` value prints the invalid-type message and
exits with code 1, and the printed message contains the literal text
`cmdline_params.type` (the source prints the variable name, not its
value). -/
theorem C9_invalid_type (fc cu : Date → Date → Except String ℚ) (p t : String) (d : Date)
    (h1 : t ≠ "FORECAST") (h2 : t ≠ "ACTUALS") :
    (main fc cu p t d).printed
      = ["Invalid run type: cmdline_params.type . Please choose from: FORECAST, ACTUALS"] ∧
    (main fc cu p t d).outcome = .exited 1 ∧
    strHas "Invalid run type: cmdline_params.type . Please choose from: FORECAST, ACTUALS"
      "cmdline_params.type" = true := by
  refine ⟨?_, ?_, by decide⟩ <;> simp only [main] <;> rw [if_neg h1, if_neg h2]

/-- Witness for C9 with `--type BOGUS`. -/
theorem C9_witness :
    (main (fun _ _ => .ok 0) (fun _ _ => .ok 0) "p" "BOGUS" ⟨2026, 1, 1⟩).outcome
      = Outcome.exited 1 :=
  (C9_invalid_type _ _ "p" "BOGUS" ⟨2026, 1, 1⟩ (by decide) (by decide)).2.1

end GetForecast
